import Mathlib

/-!
Shallow embedding of the `AdvancedDerivativesPricing` engine
(`advanced_derivatives_pricing.py`) and of the payoff-plot sweep
(`plot_widget.py`), together with theorems settling the specification
claims about them.

Modelling conventions:
* Python floats are modelled as real numbers (`ℝ`); a separate `PyFloat`
  type with an explicit NaN refines this where IEEE special values matter.
* A possibly-`None` parameter is an `Option ℝ`; the engine's
  `None in (...)` guards become matches on the option fields.
* `scipy.stats.norm.cdf` is an external library function; the embedding is
  parametric in it (`N : ℝ → ℝ`).  The predicate `IsCDF` records the
  documented properties of the standard normal CDF that proofs rely on.
* `price_barrier_option` can raise (`ValueError`), return a float, or fall
  off the end of the `elif` chain and return Python `None`; the result type
  `PyResult` has one constructor for each outcome.
* Mutation of the pricer object is modelled by state passing: operations
  that could write to the object return the resulting object alongside
  their value.
-/

/-- The market-parameter state held by `AdvancedDerivativesPricing`
(`self.S, self.K, self.T, self.r, self.sigma`); each field may be `None`. -/
structure Pricer where
  S : Option ℝ
  K : Option ℝ
  T : Option ℝ
  r : Option ℝ
  sigma : Option ℝ

/-- Outcome of a call to `price_barrier_option`: a returned float, the
implicit Python `None` return (falling off the `elif` chain), or a raised
`ValueError` with its message. -/
inductive PyResult where
  | ok (v : ℝ)
  | pyNone
  | error (msg : String)

/-- The float value of a `PyResult` (junk `0` on the non-float outcomes). -/
def PyResult.val : PyResult → ℝ
  | .ok v => v
  | .pyNone => 0
  | .error _ => 0

/-- Whether a `PyResult` is a raised error. -/
def PyResult.isError : PyResult → Bool
  | .error _ => true
  | _ => false

/-- `price_barrier_option` from `advanced_derivatives_pricing.py`, lines
61-134, transcribed statement by statement.  `N` stands for
`scipy.stats.norm.cdf`.  The initial `None in (...)` guard raises when any
parameter is `None`; otherwise the derived quantities `d1, d2, lambda_, y,
x1, y1` are computed and the nested `if/elif` dispatch on the two string
arguments follows the source; an unrecognized `barrier_type` under a
recognized `option_type` falls off the chain (Python returns `None`), and
an unrecognized `option_type` raises `ValueError`. -/
noncomputable def price_barrier_option (N : ℝ → ℝ) (p : Pricer)
    (option_type barrier_type : String) (barrier : Option ℝ) : PyResult :=
  match p.S, p.K, p.T, p.r, p.sigma, barrier with
  | some S, some K, some T, some r, some sigma, some H =>
    let d1 := (Real.log (S / K) + (r + 0.5 * sigma ^ 2) * T) / (sigma * Real.sqrt T)
    let d2 := d1 - sigma * Real.sqrt T
    let lambda_ := (r - 0.5 * sigma ^ 2) / sigma ^ 2
    let y := Real.log (H ^ 2 / (S * K)) / (sigma * Real.sqrt T) + lambda_ * sigma * Real.sqrt T
    let x1 := Real.log (S / H) / (sigma * Real.sqrt T) + lambda_ * sigma * Real.sqrt T
    if option_type = "call" then
      if barrier_type = "down-and-out" then
        if S ≤ H then .ok 0
        else .ok (S * N d1 - K * Real.exp (-r * T) * N d2 -
          S * (H / S) ^ (2 * lambda_) * (N (-x1) - N (-y)))
      else if barrier_type = "up-and-out" then
        if S ≥ H then .ok 0
        else .ok (S * N d1 - K * Real.exp (-r * T) * N d2 -
          S * (H / S) ^ (2 * lambda_) * (N y - N x1))
      else if barrier_type = "down-and-in" then
        if S ≤ H then .ok (S * N d1 - K * Real.exp (-r * T) * N d2)
        else .ok (S * (H / S) ^ (2 * lambda_) * N (-x1))
      else if barrier_type = "up-and-in" then
        if S ≥ H then .ok (S * N d1 - K * Real.exp (-r * T) * N d2)
        else .ok (S * (H / S) ^ (2 * lambda_) * N y)
      else .pyNone
    else if option_type = "put" then
      if barrier_type = "down-and-out" then
        if S ≤ H then .ok 0
        else .ok (K * Real.exp (-r * T) * N (-d2) - S * N (-d1) +
          S * (H / S) ^ (2 * lambda_) * (N (-y) - N (-x1)))
      else if barrier_type = "up-and-out" then
        if S ≥ H then .ok 0
        else .ok (K * Real.exp (-r * T) * N (-d2) - S * N (-d1) +
          S * (H / S) ^ (2 * lambda_) * (N x1 - N y))
      else if barrier_type = "down-and-in" then
        if S ≤ H then .ok (K * Real.exp (-r * T) * N (-d2) - S * N (-d1))
        else .ok (S * (H / S) ^ (2 * lambda_) * N (-y))
      else if barrier_type = "up-and-in" then
        if S ≥ H then .ok (K * Real.exp (-r * T) * N (-d2) - S * N (-d1))
        else .ok (S * (H / S) ^ (2 * lambda_) * N x1)
      else .pyNone
    else .error ("Invalid option type: " ++ option_type)
  | _, _, _, _, _, _ => .error "All parameters must be non-None"

/-- The `OptionType` enumeration of the spec ({Call, Put}). -/
inductive OptionType where
  | call
  | put
  deriving DecidableEq

/-- The string the source uses for each `OptionType`. -/
def OptionType.str : OptionType → String
  | .call => "call"
  | .put => "put"

/-- The `BarrierType` enumeration of the spec
({UpAndIn, UpAndOut, DownAndIn, DownAndOut}). -/
inductive BarrierType where
  | upAndIn
  | upAndOut
  | downAndIn
  | downAndOut
  deriving DecidableEq

/-- The string the source uses for each `BarrierType`. -/
def BarrierType.str : BarrierType → String
  | .upAndIn => "up-and-in"
  | .upAndOut => "up-and-out"
  | .downAndIn => "down-and-in"
  | .downAndOut => "down-and-out"

/-- Spec §4.1: `d1 = (ln(S/K) + (r + σ²/2)·T) / (σ·√T)`. -/
noncomputable def specD1 (S K T r sigma : ℝ) : ℝ :=
  (Real.log (S / K) + (r + sigma ^ 2 / 2) * T) / (sigma * Real.sqrt T)

/-- Spec §4.1: `d2 = d1 − σ·√T`. -/
noncomputable def specD2 (S K T r sigma : ℝ) : ℝ :=
  specD1 S K T r sigma - sigma * Real.sqrt T

/-- Spec §4.1: `λ = (r − σ²/2) / σ²`. -/
noncomputable def specLambda (r sigma : ℝ) : ℝ :=
  (r - sigma ^ 2 / 2) / sigma ^ 2

/-- Spec §4.1: `y = ln(H²/(S·K)) / (σ·√T) + λ·σ·√T`. -/
noncomputable def specY (S K T r sigma H : ℝ) : ℝ :=
  Real.log (H ^ 2 / (S * K)) / (sigma * Real.sqrt T) +
    specLambda r sigma * sigma * Real.sqrt T

/-- Spec §4.1: `x1 = ln(S/H) / (σ·√T) + λ·σ·√T`. -/
noncomputable def specX1 (S K T r sigma H : ℝ) : ℝ :=
  Real.log (S / H) / (sigma * Real.sqrt T) +
    specLambda r sigma * sigma * Real.sqrt T

/-- Spec §4.1: `vanilla(call)`, the ordinary Black-Scholes call price
`S·N(d1) − K·e^(−rT)·N(d2)`. -/
noncomputable def specVanillaCall (N : ℝ → ℝ) (S K T r sigma : ℝ) : ℝ :=
  S * N (specD1 S K T r sigma) - K * Real.exp (-r * T) * N (specD2 S K T r sigma)

/-- Spec §4.1: `vanilla(put)`, the ordinary Black-Scholes put price
`K·e^(−rT)·N(−d2) − S·N(−d1)`. -/
noncomputable def specVanillaPut (N : ℝ → ℝ) (S K T r sigma : ℝ) : ℝ :=
  K * Real.exp (-r * T) * N (-specD2 S K T r sigma) - S * N (-specD1 S K T r sigma)

/-- The eight-row branch table of spec §4.1: for each
(OptionType, BarrierType) pair, the knock condition (comparing S to H
non-strictly) selects the degenerate value, and otherwise the active-region
formula of that row applies. -/
noncomputable def specBarrierPrice (N : ℝ → ℝ) (S K T r sigma H : ℝ) :
    OptionType → BarrierType → ℝ
  | .call, .downAndOut => if S ≤ H then 0 else
      specVanillaCall N S K T r sigma -
        S * (H / S) ^ (2 * specLambda r sigma) *
          (N (-specX1 S K T r sigma H) - N (-specY S K T r sigma H))
  | .call, .upAndOut => if S ≥ H then 0 else
      specVanillaCall N S K T r sigma -
        S * (H / S) ^ (2 * specLambda r sigma) *
          (N (specY S K T r sigma H) - N (specX1 S K T r sigma H))
  | .call, .downAndIn => if S ≤ H then specVanillaCall N S K T r sigma else
      S * (H / S) ^ (2 * specLambda r sigma) * N (-specX1 S K T r sigma H)
  | .call, .upAndIn => if S ≥ H then specVanillaCall N S K T r sigma else
      S * (H / S) ^ (2 * specLambda r sigma) * N (specY S K T r sigma H)
  | .put, .downAndOut => if S ≤ H then 0 else
      specVanillaPut N S K T r sigma +
        S * (H / S) ^ (2 * specLambda r sigma) *
          (N (-specY S K T r sigma H) - N (-specX1 S K T r sigma H))
  | .put, .upAndOut => if S ≥ H then 0 else
      specVanillaPut N S K T r sigma +
        S * (H / S) ^ (2 * specLambda r sigma) *
          (N (specX1 S K T r sigma H) - N (specY S K T r sigma H))
  | .put, .downAndIn => if S ≤ H then specVanillaPut N S K T r sigma else
      S * (H / S) ^ (2 * specLambda r sigma) * N (-specY S K T r sigma H)
  | .put, .upAndIn => if S ≥ H then specVanillaPut N S K T r sigma else
      S * (H / S) ^ (2 * specLambda r sigma) * N (specX1 S K T r sigma H)

set_option maxHeartbeats 1000000 in
lemma price_barrier_eq_spec (N : ℝ → ℝ) (S K T r sigma H : ℝ)
    (ot : OptionType) (bt : BarrierType) :
    price_barrier_option N ⟨some S, some K, some T, some r, some sigma⟩
      ot.str bt.str (some H) = .ok (specBarrierPrice N S K T r sigma H ot bt) := by
  have hd1 : (Real.log (S / K) + (r + 0.5 * sigma ^ 2) * T) / (sigma * Real.sqrt T)
      = specD1 S K T r sigma := by
    rw [specD1]; ring_nf
  have hlam : (r - 0.5 * sigma ^ 2) / sigma ^ 2 = specLambda r sigma := by
    rw [specLambda]; ring_nf
  cases ot <;> cases bt <;>
    simp only [price_barrier_option, OptionType.str, BarrierType.str, specBarrierPrice,
      specVanillaCall, specVanillaPut, specD2, specY, specX1, hd1, hlam,
      String.reduceEq, reduceIte, ite_eq_ite] <;>
    split <;> rfl

/-- Sequencing used inside `calculate_greeks`: a returned float continues the
computation; a raised `ValueError` propagates; the implicit `None` return
makes the subsequent float arithmetic on it raise a `TypeError`. -/
def PyResult.bindF {α : Type} (x : PyResult) (f : ℝ → Except String α) :
    Except String α :=
  match x with
  | .ok v => f v
  | .pyNone => .error "TypeError"
  | .error e => .error e

/-- `calculate_greeks` from `advanced_derivatives_pricing.py`, lines 136-192,
in state-passing form: the second component is the pricer object after the
call (the method never assigns to `self`, so it is the input object).  After
the `None` guard, the base price and the five perturbed prices are computed
in source order, each perturbed one on a freshly constructed pricer differing
from the base in exactly one field, and the dictionary
`{Delta, Gamma, Vega, Theta, Rho}` is returned in that insertion order. -/
noncomputable def calculate_greeks (N : ℝ → ℝ) (p : Pricer)
    (option_type barrier_type : String) (barrier : Option ℝ) :
    Except String (List (String × ℝ)) × Pricer :=
  match p.S, p.K, p.T, p.r, p.sigma, barrier with
  | some S, some K, some T, some r, some sigma, some _ =>
    let eps : ℝ := 1e-5
    let res :=
      (price_barrier_option N p option_type barrier_type barrier).bindF fun price =>
      (price_barrier_option N ⟨some (S + eps), some K, some T, some r, some sigma⟩
          option_type barrier_type barrier).bindF fun price_up =>
      let delta := (price_up - price) / eps
      (price_barrier_option N ⟨some (S - eps), some K, some T, some r, some sigma⟩
          option_type barrier_type barrier).bindF fun price_down =>
      let gamma := (price_up - 2 * price + price_down) / eps ^ 2
      (price_barrier_option N ⟨some S, some K, some T, some r, some (sigma + eps)⟩
          option_type barrier_type barrier).bindF fun price_sigma_up =>
      let vega := (price_sigma_up - price) / eps
      (price_barrier_option N ⟨some S, some K, some (max (T - eps / 365) eps), some r, some sigma⟩
          option_type barrier_type barrier).bindF fun price_T_down =>
      let theta := (price_T_down - price) / (eps / 365)
      (price_barrier_option N ⟨some S, some K, some T, some (r + eps), some sigma⟩
          option_type barrier_type barrier).bindF fun price_r_up =>
      let rho := (price_r_up - price) / eps
      .ok [("Delta", delta), ("Gamma", gamma), ("Vega", vega),
           ("Theta", theta), ("Rho", rho)]
    (res, p)
  | _, _, _, _, _, _ => (.error "All parameters must be non-None", p)

/-- `price_futures` from `advanced_derivatives_pricing.py`, lines 194-214:
after the `None` guard on S, T, r, returns
`S * exp((r + storage_cost - convenience_yield) * T)`. -/
noncomputable def price_futures (p : Pricer)
    (storage_cost convenience_yield : ℝ) : Except String ℝ :=
  match p.S, p.T, p.r with
  | some S, some T, some r =>
    let net_cost := storage_cost - convenience_yield
    .ok (S * Real.exp ((r + net_cost) * T))
  | _, _, _ => .error "S, T, and r must be non-None"

/-- `price_cfd` from `advanced_derivatives_pricing.py`, lines 216-244: after
the `None` guard on S and r, computes the price-move and financing legs and
dispatches on the position string, raising `ValueError` on anything outside
{"long", "short"}. -/
noncomputable def price_cfd (p : Pricer) (position : String)
    (financing_rate holding_period : ℝ) : Except String ℝ :=
  match p.S, p.r with
  | some S, some r =>
    let daily_price_change := S * (Real.exp (r * (holding_period / 365)) - 1)
    let financing_cost := S * financing_rate * holding_period / 365
    if position = "long" then .ok (daily_price_change - financing_cost)
    else if position = "short" then .ok (-daily_price_change - financing_cost)
    else .error "Invalid position type"
  | _, _ => .error "S and r must be non-None"

/-- The float value of an `Except` result (junk `0` on an error). -/
def exVal : Except String ℝ → ℝ
  | .ok v => v
  | .error _ => 0

/-- A Python float refined with the IEEE quiet NaN: `num x` is an ordinary
(finite) float value, `nan` is not-a-number.  Used to check what the
`None in (...)` guards do on non-finite inputs: NaN is a float, not `None`,
so it passes the guard. -/
inductive PyFloat where
  | num (x : ℝ)
  | nan
  deriving Inhabited

/-- IEEE addition on the NaN-refined floats: NaN propagates. -/
def PyFloat.add : PyFloat → PyFloat → PyFloat
  | .num x, .num y => .num (x + y)
  | _, _ => .nan

/-- IEEE subtraction on the NaN-refined floats: NaN propagates. -/
def PyFloat.sub : PyFloat → PyFloat → PyFloat
  | .num x, .num y => .num (x - y)
  | _, _ => .nan

/-- IEEE multiplication on the NaN-refined floats: NaN propagates. -/
def PyFloat.mul : PyFloat → PyFloat → PyFloat
  | .num x, .num y => .num (x * y)
  | _, _ => .nan

/-- `np.exp` on the NaN-refined floats: NaN propagates. -/
noncomputable def PyFloat.exp : PyFloat → PyFloat
  | .num x => .num (Real.exp x)
  | .nan => .nan

/-- The pricer state with its floats refined by the explicit NaN. -/
structure PricerF where
  S : Option PyFloat
  K : Option PyFloat
  T : Option PyFloat
  r : Option PyFloat
  sigma : Option PyFloat

/-- `price_futures` again (lines 194-214), over the NaN-refined floats: the
`None in (self.S, self.T, self.r)` guard only matches `None`, so a NaN field
passes it and flows through the arithmetic. -/
noncomputable def price_futures_float (p : PricerF)
    (storage_cost convenience_yield : PyFloat) : Except String PyFloat :=
  match p.S, p.T, p.r with
  | some S, some T, some r =>
    let net_cost := storage_cost.sub convenience_yield
    .ok (S.mul ((r.add net_cost).mul T).exp)
  | _, _, _ => .error "S, T, and r must be non-None"

/-- `np.linspace(a, b, num)` with default `endpoint=True`: `num` evenly
spaced samples `a + i*(b-a)/(num-1)` for `i = 0 .. num-1`. -/
noncomputable def linspace (a b : ℝ) (num : ℕ) : List ℝ :=
  (List.range num).map fun (i : ℕ) => a + (i : ℝ) * ((b - a) / ((num : ℝ) - 1))

/-- One iteration of the plotting loop of `plot_widget.py`, lines 42-44:
`pricer.S = S` writes the sample into the shared pricer, then the priced
pair is appended to the accumulated curve. -/
noncomputable def plot_step (N : ℝ → ℝ) (option_type barrier_type : String)
    (barrier : Option ℝ) (acc : List (ℝ × PyResult) × Pricer) (s : ℝ) :
    List (ℝ × PyResult) × Pricer :=
  let p2 : Pricer := { acc.2 with S := some s }
  (acc.1 ++ [(s, price_barrier_option N p2 option_type barrier_type barrier)], p2)

/-- `plot_payoff` from `plot_widget.py`, lines 23-57, restricted to its data
content (the matplotlib rendering draws exactly the computed pairs): sweep
`np.linspace(pricer.K * 0.5, pricer.K * 1.5, 100)`, writing each sample into
the shared pricer's `S` field and pricing.  Returns the curve and the pricer
object as it is left after the loop.  A `None` strike makes the very first
expression `pricer.K * 0.5` raise a `TypeError`. -/
noncomputable def plot_payoff (N : ℝ → ℝ) (p : Pricer)
    (option_type barrier_type : String) (barrier : Option ℝ) :
    Except String (List (ℝ × PyResult) × Pricer) :=
  match p.K with
  | some K =>
    let stock_prices := linspace (K * 0.5) (K * 1.5) 100
    .ok (stock_prices.foldl (plot_step N option_type barrier_type barrier) ([], p))
  | none => .error "TypeError"

/-- The documented properties of `scipy.stats.norm.cdf` (the standard normal
CDF) that the development relies on: it is strictly increasing, valued in
the open interval (0, 1), and equals 1/2 at 0. -/
def IsCDF (N : ℝ → ℝ) : Prop :=
  StrictMono N ∧ (∀ x, 0 < N x) ∧ (∀ x, N x < 1) ∧ N 0 = 1 / 2

/-- The logistic sigmoid, a concrete function with all the `IsCDF`
properties; used to instantiate theorems that are parametric in the CDF. -/
noncomputable def logistic (x : ℝ) : ℝ := 1 / (1 + Real.exp (-x))

lemma one_add_exp_pos (x : ℝ) : 0 < 1 + Real.exp (-x) := by positivity

lemma logistic_isCDF : IsCDF logistic := by
  refine ⟨fun a b hab => ?_, fun x => ?_, fun x => ?_, ?_⟩
  · unfold logistic
    apply div_lt_div_of_pos_left one_pos (one_add_exp_pos b)
    have := Real.exp_lt_exp.mpr (neg_lt_neg hab)
    linarith
  · unfold logistic
    positivity
  · unfold logistic
    rw [div_lt_one (one_add_exp_pos x)]
    have := Real.exp_pos (-x)
    linarith
  · unfold logistic
    rw [neg_zero, Real.exp_zero]
    norm_num

/-- C1: for every market parameter set with S > 0, K > 0, T > 0, sigma > 0
and barrier H > 0, `price_barrier_option` dispatches over the 8 mutually
exclusive (option type, barrier type) cases exactly as the spec table
states: when the knock condition holds (non-strict comparison of S to H) it
returns the degenerate value (0 for knock-outs, the vanilla Black-Scholes
price for knock-ins), and otherwise the active-region formula of that
row. -/
theorem priceBarrierOption_matches_spec_table (N : ℝ → ℝ) (S K T r sigma H : ℝ)
    (hS : 0 < S) (hK : 0 < K) (hT : 0 < T) (hsigma : 0 < sigma) (hH : 0 < H)
    (ot : OptionType) (bt : BarrierType) :
    price_barrier_option N ⟨some S, some K, some T, some r, some sigma⟩
      ot.str bt.str (some H) = .ok (specBarrierPrice N S K T r sigma H ot bt) :=
  price_barrier_eq_spec N S K T r sigma H ot bt

/-- Witness for C1 at S=100, K=95, T=1, r=1/20, sigma=1/5, H=120, with an
up-and-out call. -/
theorem priceBarrierOption_matches_spec_table_witness :
    (0:ℝ) < 100 ∧ (0:ℝ) < 95 ∧ (0:ℝ) < 1 ∧ (0:ℝ) < 1/5 ∧ (0:ℝ) < 120 ∧
    price_barrier_option logistic ⟨some 100, some 95, some 1, some (1/20), some (1/5)⟩
      OptionType.call.str BarrierType.upAndOut.str (some 120) =
      .ok (specBarrierPrice logistic 100 95 1 (1/20) (1/5) 120 .call .upAndOut) :=
  ⟨by norm_num, by norm_num, by norm_num, by norm_num, by norm_num,
   priceBarrierOption_matches_spec_table logistic 100 95 1 (1/20) (1/5) 120
     (by norm_num) (by norm_num) (by norm_num) (by norm_num) (by norm_num)
     .call .upAndOut⟩

/-- C6: `price_futures` returns `S * exp((r + storageCost - convenienceYield)
* T)`; with both optional parameters 0 it is `S * exp(r * T)`; and at S=100,
r=0.05, storageCost=0.02, convenienceYield=0.01, T=1 it is `100 *
exp(0.06)`.  It ignores K and sigma entirely. -/
theorem priceFutures_cost_of_carry (S T r sc cy : ℝ) (oK osigma : Option ℝ) :
    price_futures ⟨some S, oK, some T, some r, osigma⟩ sc cy
        = .ok (S * Real.exp ((r + sc - cy) * T)) ∧
    price_futures ⟨some S, oK, some T, some r, osigma⟩ 0 0
        = .ok (S * Real.exp (r * T)) ∧
    price_futures ⟨some 100, oK, some 1, some (5/100), osigma⟩ (2/100) (1/100)
        = .ok (100 * Real.exp (6/100)) := by
  refine ⟨?_, ?_, ?_⟩ <;> simp only [price_futures]
  · rw [show r + (sc - cy) = r + sc - cy from by ring]
  · rw [show r + ((0:ℝ) - 0) = r from by ring]
  · rw [show ((5/100:ℝ) + (2/100 - 1/100)) * 1 = 6/100 from by norm_num]

/-- C7: `price_cfd` for long and short with identical other parameters sums
to `-2 * S * financingRate * holdingPeriod / 365` (the price-move legs
cancel), and any position outside {"long", "short"} raises `ValueError`. -/
theorem priceCfd_long_short_sum_and_invalid (S r fr hp : ℝ) (oK oT osigma : Option ℝ)
    (pos : String) (h1 : pos ≠ "long") (h2 : pos ≠ "short") :
    exVal (price_cfd ⟨some S, oK, oT, some r, osigma⟩ "long" fr hp) +
      exVal (price_cfd ⟨some S, oK, oT, some r, osigma⟩ "short" fr hp)
        = -2 * S * fr * hp / 365 ∧
    price_cfd ⟨some S, oK, oT, some r, osigma⟩ pos fr hp
        = .error "Invalid position type" := by
  constructor
  · simp only [price_cfd, String.reduceEq, reduceIte, exVal]
    ring
  · simp only [price_cfd, h1, h2, reduceIte, if_neg h1, if_neg h2]

/-- Witness for C7 at S=100, r=1/20, fr=1/1000, hp=30, position "flat". -/
theorem priceCfd_long_short_sum_and_invalid_witness :
    ("flat" ≠ "long") ∧ ("flat" ≠ "short") ∧
    (exVal (price_cfd ⟨some 100, none, none, some (1/20), none⟩ "long" (1/1000) 30) +
      exVal (price_cfd ⟨some 100, none, none, some (1/20), none⟩ "short" (1/1000) 30)
        = -2 * 100 * (1/1000) * 30 / 365 ∧
     price_cfd ⟨some 100, none, none, some (1/20), none⟩ "flat" (1/1000) 30
        = .error "Invalid position type") :=
  ⟨by decide, by decide,
   priceCfd_long_short_sum_and_invalid 100 (1/20) (1/1000) 30 none none none
     "flat" (by decide) (by decide)⟩

/-- C10: `price_cfd` reads only the S and r fields of the engine and its own
three arguments: two engines agreeing on S and r give identical results for
identical arguments, and the call succeeds even when K, T and sigma are all
absent. -/
theorem priceCfd_depends_only_on_S_r (p q : Pricer) (hS : p.S = q.S)
    (hr : p.r = q.r) (pos : String) (fr hp S r : ℝ) :
    price_cfd p pos fr hp = price_cfd q pos fr hp ∧
    price_cfd ⟨some S, none, none, some r, none⟩ "long" fr hp
      = .ok (S * (Real.exp (r * (hp / 365)) - 1) - S * fr * hp / 365) := by
  constructor
  · simp only [price_cfd, hS, hr]
  · simp only [price_cfd, String.reduceEq, reduceIte]

/-- Witness for C10: two engines sharing S=100, r=1/20 but differing in K,
T, sigma (one has them all absent). -/
theorem priceCfd_depends_only_on_S_r_witness :
    ((⟨some 100, some 90, some 1, some (1/20), some (1/5)⟩ : Pricer).S
        = (⟨some 100, none, none, some (1/20), none⟩ : Pricer).S) ∧
    ((⟨some 100, some 90, some 1, some (1/20), some (1/5)⟩ : Pricer).r
        = (⟨some 100, none, none, some (1/20), none⟩ : Pricer).r) ∧
    (price_cfd ⟨some 100, some 90, some 1, some (1/20), some (1/5)⟩ "long" (1/1000) 30
        = price_cfd ⟨some 100, none, none, some (1/20), none⟩ "long" (1/1000) 30 ∧
     price_cfd ⟨some 100, none, none, some (1/20), none⟩ "long" (1/1000) 30
        = .ok (100 * (Real.exp ((1/20) * (30 / 365)) - 1) - 100 * (1/1000) * 30 / 365)) :=
  ⟨rfl, rfl,
   priceCfd_depends_only_on_S_r
     ⟨some 100, some 90, some 1, some (1/20), some (1/5)⟩
     ⟨some 100, none, none, some (1/20), none⟩ rfl rfl "long" (1/1000) 30 100 (1/20)⟩

/-- C3 counterexample: with valid market parameters, option type "call" and
the unrecognized barrier type "american", `price_barrier_option` does not
raise: it falls off the `elif` chain and returns Python `None`. -/
theorem invalid_barrier_type_returns_none :
    price_barrier_option logistic
      ⟨some 100, some 100, some 1, some (1/20), some (1/5)⟩
      "call" "american" (some 90) = .pyNone ∧
    (price_barrier_option logistic
      ⟨some 100, some 100, some 1, some (1/20), some (1/5)⟩
      "call" "american" (some 90)).isError = false :=
  ⟨rfl, rfl⟩

/-- C3 amended: an option type outside {"call", "put"} makes
`price_barrier_option` raise `ValueError`, and `calculate_greeks` propagates
that error; but a barrier type outside the four recognized values, under a
recognized option type, makes `price_barrier_option` return Python `None`
(no exception). -/
theorem invalid_enum_dispatch (N : ℝ → ℝ) (S K T r sigma H : ℝ)
    (ot bt : String)
    (hot1 : ot ≠ "call") (hot2 : ot ≠ "put")
    (hbt1 : bt ≠ "down-and-out") (hbt2 : bt ≠ "up-and-out")
    (hbt3 : bt ≠ "down-and-in") (hbt4 : bt ≠ "up-and-in") :
    price_barrier_option N ⟨some S, some K, some T, some r, some sigma⟩
        ot bt (some H) = .error ("Invalid option type: " ++ ot) ∧
    (calculate_greeks N ⟨some S, some K, some T, some r, some sigma⟩
        ot bt (some H)).1 = .error ("Invalid option type: " ++ ot) ∧
    price_barrier_option N ⟨some S, some K, some T, some r, some sigma⟩
        "call" bt (some H) = .pyNone ∧
    price_barrier_option N ⟨some S, some K, some T, some r, some sigma⟩
        "put" bt (some H) = .pyNone := by
  have hperr : ∀ S' K' T' r' sigma' : ℝ,
      price_barrier_option N ⟨some S', some K', some T', some r', some sigma'⟩
        ot bt (some H) = .error ("Invalid option type: " ++ ot) := by
    intro S' K' T' r' sigma'
    simp only [price_barrier_option, if_neg hot1, if_neg hot2]
  refine ⟨hperr S K T r sigma, ?_, ?_, ?_⟩
  · simp only [calculate_greeks, hperr, PyResult.bindF]
  · simp only [price_barrier_option, String.reduceEq, reduceIte,
      if_neg hbt1, if_neg hbt2, if_neg hbt3, if_neg hbt4]
  · simp only [price_barrier_option, String.reduceEq, reduceIte,
      if_neg hbt1, if_neg hbt2, if_neg hbt3, if_neg hbt4]

/-- Witness for the amended C3 at option type "straddle" and barrier type
"american". -/
theorem invalid_enum_dispatch_witness :
    ("straddle" ≠ "call") ∧ ("straddle" ≠ "put") ∧
    ("american" ≠ "down-and-out") ∧ ("american" ≠ "up-and-out") ∧
    ("american" ≠ "down-and-in") ∧ ("american" ≠ "up-and-in") ∧
    (price_barrier_option logistic
        ⟨some 100, some 100, some 1, some (1/20), some (1/5)⟩
        "straddle" "american" (some 90)
          = .error ("Invalid option type: " ++ "straddle") ∧
     (calculate_greeks logistic
        ⟨some 100, some 100, some 1, some (1/20), some (1/5)⟩
        "straddle" "american" (some 90)).1
          = .error ("Invalid option type: " ++ "straddle") ∧
     price_barrier_option logistic
        ⟨some 100, some 100, some 1, some (1/20), some (1/5)⟩
        "call" "american" (some 90) = .pyNone ∧
     price_barrier_option logistic
        ⟨some 100, some 100, some 1, some (1/20), some (1/5)⟩
        "put" "american" (some 90) = .pyNone) :=
  ⟨by decide, by decide, by decide, by decide, by decide, by decide,
   invalid_enum_dispatch logistic 100 100 1 (1/20) (1/5) 90 "straddle" "american"
     (by decide) (by decide) (by decide) (by decide) (by decide) (by decide)⟩

/-- C4 counterexample: a NaN spot is a float, not `None`, so it passes the
`None in (self.S, self.T, self.r)` guard of `price_futures`; the arithmetic
proceeds and the call succeeds, returning NaN instead of failing. -/
theorem nan_passes_missing_parameter_guard :
    price_futures_float
      ⟨some .nan, some (.num 100), some (.num 1), some (.num (1/20)), some (.num (1/5))⟩
      (.num 0) (.num 0) = .ok PyFloat.nan :=
  rfl

/-- C4 amended: each public pricing operation fails with `ValueError` before
any arithmetic when a required parameter is absent (`None`): S, K, T, r,
sigma and the barrier for `price_barrier_option` and `calculate_greeks`;
S, T, r for `price_futures`; S, r for `price_cfd`.  (Non-finite floats are
not checked and propagate through the arithmetic.) -/
theorem missing_parameter_guards (N : ℝ → ℝ) (p : Pricer) (ot bt pos : String)
    (B : Option ℝ) (sc cy fr hp : ℝ) :
    (p.S = none ∨ p.K = none ∨ p.T = none ∨ p.r = none ∨ p.sigma = none ∨ B = none →
      price_barrier_option N p ot bt B = .error "All parameters must be non-None" ∧
      (calculate_greeks N p ot bt B).1 = .error "All parameters must be non-None") ∧
    (p.S = none ∨ p.T = none ∨ p.r = none →
      price_futures p sc cy = .error "S, T, and r must be non-None") ∧
    (p.S = none ∨ p.r = none →
      price_cfd p pos fr hp = .error "S and r must be non-None") := by
  obtain ⟨s, k, t, rr, sg⟩ := p
  refine ⟨fun h => ?_, fun h => ?_, fun h => ?_⟩
  · cases s <;> cases k <;> cases t <;> cases rr <;> cases sg <;> cases B <;>
      first
        | exact ⟨rfl, rfl⟩
        | simp_all
  · cases s <;> cases t <;> cases rr <;> first | rfl | simp_all
  · cases s <;> cases rr <;> first | rfl | simp_all

/-- Witness for the amended C4 on a pricer whose every field is absent. -/
theorem missing_parameter_guards_witness :
    ((⟨none, none, none, none, none⟩ : Pricer).S = none ∨
      (⟨none, none, none, none, none⟩ : Pricer).K = none ∨
      (⟨none, none, none, none, none⟩ : Pricer).T = none ∨
      (⟨none, none, none, none, none⟩ : Pricer).r = none ∨
      (⟨none, none, none, none, none⟩ : Pricer).sigma = none ∨
      (none : Option ℝ) = none) ∧
    price_barrier_option logistic ⟨none, none, none, none, none⟩
      "call" "up-and-in" none = .error "All parameters must be non-None" ∧
    (calculate_greeks logistic ⟨none, none, none, none, none⟩
      "call" "up-and-in" none).1 = .error "All parameters must be non-None" ∧
    price_futures ⟨none, none, none, none, none⟩ 0 0
      = .error "S, T, and r must be non-None" ∧
    price_cfd ⟨none, none, none, none, none⟩ "long" 0 0
      = .error "S and r must be non-None" := by
  have h := missing_parameter_guards logistic ⟨none, none, none, none, none⟩
    "call" "up-and-in" "long" none 0 0 0 0
  exact ⟨Or.inl rfl, (h.1 (Or.inl rfl)).1, (h.1 (Or.inl rfl)).2,
    h.2.1 (Or.inl rfl), h.2.2 (Or.inl rfl)⟩

/-- The float returned by `price_barrier_option` on a fully specified
parameter set; used to state which re-pricings `calculate_greeks`
performs. -/
noncomputable def reprice (N : ℝ → ℝ) (ot : OptionType) (bt : BarrierType)
    (S K T r sigma H : ℝ) : ℝ :=
  (price_barrier_option N ⟨some S, some K, some T, some r, some sigma⟩
    ot.str bt.str (some H)).val

/-- C5: for every valid configuration, `calculate_greeks` returns the
mapping with keys exactly Delta, Gamma, Vega, Theta, Rho in that insertion
order, each value the stated finite difference with step eps = 1e-5 (Theta
using eps/365 and the floored maturity `max (T - eps/365) eps`), every
perturbed price re-priced through `price_barrier_option` with all other
parameters held fixed. -/
theorem calculateGreeks_finite_differences (N : ℝ → ℝ) (S K T r sigma H : ℝ)
    (hS : 0 < S) (hK : 0 < K) (hT : 0 < T) (hsigma : 0 < sigma) (hH : 0 < H)
    (ot : OptionType) (bt : BarrierType) :
    (calculate_greeks N ⟨some S, some K, some T, some r, some sigma⟩
        ot.str bt.str (some H)).1 =
      .ok [("Delta", (reprice N ot bt (S + 1e-5) K T r sigma H -
                      reprice N ot bt S K T r sigma H) / 1e-5),
           ("Gamma", (reprice N ot bt (S + 1e-5) K T r sigma H -
                      2 * reprice N ot bt S K T r sigma H +
                      reprice N ot bt (S - 1e-5) K T r sigma H) / (1e-5) ^ 2),
           ("Vega", (reprice N ot bt S K T r (sigma + 1e-5) H -
                     reprice N ot bt S K T r sigma H) / 1e-5),
           ("Theta", (reprice N ot bt S K (max (T - 1e-5 / 365) 1e-5) r sigma H -
                      reprice N ot bt S K T r sigma H) / (1e-5 / 365)),
           ("Rho", (reprice N ot bt S K T (r + 1e-5) sigma H -
                    reprice N ot bt S K T r sigma H) / 1e-5)] := by
  simp only [calculate_greeks, reprice, price_barrier_eq_spec,
    PyResult.bindF, PyResult.val]

/-- Witness for C5 at S=100, K=100, T=1, r=1/20, sigma=1/5, H=120, with an
up-and-out call. -/
theorem calculateGreeks_finite_differences_witness :
    (0:ℝ) < 100 ∧ (0:ℝ) < 1 ∧ (0:ℝ) < 1/5 ∧ (0:ℝ) < 120 ∧
    (calculate_greeks logistic ⟨some 100, some 100, some 1, some (1/20), some (1/5)⟩
        OptionType.call.str BarrierType.upAndOut.str (some 120)).1 =
      .ok [("Delta", (reprice logistic .call .upAndOut (100 + 1e-5) 100 1 (1/20) (1/5) 120 -
                      reprice logistic .call .upAndOut 100 100 1 (1/20) (1/5) 120) / 1e-5),
           ("Gamma", (reprice logistic .call .upAndOut (100 + 1e-5) 100 1 (1/20) (1/5) 120 -
                      2 * reprice logistic .call .upAndOut 100 100 1 (1/20) (1/5) 120 +
                      reprice logistic .call .upAndOut (100 - 1e-5) 100 1 (1/20) (1/5) 120) / (1e-5) ^ 2),
           ("Vega", (reprice logistic .call .upAndOut 100 100 1 (1/20) (1/5 + 1e-5) 120 -
                     reprice logistic .call .upAndOut 100 100 1 (1/20) (1/5) 120) / 1e-5),
           ("Theta", (reprice logistic .call .upAndOut 100 100 (max (1 - 1e-5 / 365) 1e-5) (1/20) (1/5) 120 -
                      reprice logistic .call .upAndOut 100 100 1 (1/20) (1/5) 120) / (1e-5 / 365)),
           ("Rho", (reprice logistic .call .upAndOut 100 100 1 (1/20 + 1e-5) (1/5) 120 -
                    reprice logistic .call .upAndOut 100 100 1 (1/20) (1/5) 120) / 1e-5)] :=
  ⟨by norm_num, by norm_num, by norm_num, by norm_num,
   calculateGreeks_finite_differences logistic 100 100 1 (1/20) (1/5) 120
     (by norm_num) (by norm_num) (by norm_num) (by norm_num) (by norm_num)
     .call .upAndOut⟩

/-- C8: `calculate_greeks` never mutates the original parameters: the pricer
object after the call has exactly the S, K, T, r, sigma it had before, and
each perturbed price is computed against a fresh copy of the parameter set
in which only the one perturbed parameter differs from the base. -/
theorem calculateGreeks_no_mutation (N : ℝ → ℝ) (p : Pricer)
    (S K T r sigma H : ℝ)
    (hS : p.S = some S) (hK : p.K = some K) (hT : p.T = some T)
    (hr : p.r = some r) (hsg : p.sigma = some sigma)
    (otS btS : String) (ot : OptionType) (bt : BarrierType) :
    ((calculate_greeks N p otS btS (some H)).2.S = p.S ∧
     (calculate_greeks N p otS btS (some H)).2.K = p.K ∧
     (calculate_greeks N p otS btS (some H)).2.T = p.T ∧
     (calculate_greeks N p otS btS (some H)).2.r = p.r ∧
     (calculate_greeks N p otS btS (some H)).2.sigma = p.sigma) ∧
    (calculate_greeks N p ot.str bt.str (some H)).1 =
      .ok [("Delta",
              ((price_barrier_option N { p with S := some (S + 1e-5) }
                  ot.str bt.str (some H)).val -
               (price_barrier_option N p ot.str bt.str (some H)).val) / 1e-5),
           ("Gamma",
              ((price_barrier_option N { p with S := some (S + 1e-5) }
                  ot.str bt.str (some H)).val -
               2 * (price_barrier_option N p ot.str bt.str (some H)).val +
               (price_barrier_option N { p with S := some (S - 1e-5) }
                  ot.str bt.str (some H)).val) / (1e-5) ^ 2),
           ("Vega",
              ((price_barrier_option N { p with sigma := some (sigma + 1e-5) }
                  ot.str bt.str (some H)).val -
               (price_barrier_option N p ot.str bt.str (some H)).val) / 1e-5),
           ("Theta",
              ((price_barrier_option N { p with T := some (max (T - 1e-5 / 365) 1e-5) }
                  ot.str bt.str (some H)).val -
               (price_barrier_option N p ot.str bt.str (some H)).val) / (1e-5 / 365)),
           ("Rho",
              ((price_barrier_option N { p with r := some (r + 1e-5) }
                  ot.str bt.str (some H)).val -
               (price_barrier_option N p ot.str bt.str (some H)).val) / 1e-5)] := by
  obtain ⟨s0, k0, t0, r0, g0⟩ := p
  simp only at hS hK hT hr hsg
  subst hS hK hT hr hsg
  constructor
  · exact ⟨rfl, rfl, rfl, rfl, rfl⟩
  · simp only [calculate_greeks, price_barrier_eq_spec, PyResult.bindF, PyResult.val]

/-- Witness for C8 at S=100, K=100, T=1, r=1/20, sigma=1/5, H=90, with a
down-and-in put. -/
theorem calculateGreeks_no_mutation_witness :
    ((⟨some 100, some 100, some 1, some (1/20), some (1/5)⟩ : Pricer).S = some 100) ∧
    ((calculate_greeks logistic ⟨some 100, some 100, some 1, some (1/20), some (1/5)⟩
        "x" "y" (some 90)).2.S
      = (⟨some 100, some 100, some 1, some (1/20), some (1/5)⟩ : Pricer).S) ∧
    (calculate_greeks logistic ⟨some 100, some 100, some 1, some (1/20), some (1/5)⟩
        OptionType.put.str BarrierType.downAndIn.str (some 90)).1 =
      .ok [("Delta",
              ((price_barrier_option logistic
                  { (⟨some 100, some 100, some 1, some (1/20), some (1/5)⟩ : Pricer) with
                      S := some (100 + 1e-5) }
                  OptionType.put.str BarrierType.downAndIn.str (some 90)).val -
               (price_barrier_option logistic
                  ⟨some 100, some 100, some 1, some (1/20), some (1/5)⟩
                  OptionType.put.str BarrierType.downAndIn.str (some 90)).val) / 1e-5),
           ("Gamma",
              ((price_barrier_option logistic
                  { (⟨some 100, some 100, some 1, some (1/20), some (1/5)⟩ : Pricer) with
                      S := some (100 + 1e-5) }
                  OptionType.put.str BarrierType.downAndIn.str (some 90)).val -
               2 * (price_barrier_option logistic
                  ⟨some 100, some 100, some 1, some (1/20), some (1/5)⟩
                  OptionType.put.str BarrierType.downAndIn.str (some 90)).val +
               (price_barrier_option logistic
                  { (⟨some 100, some 100, some 1, some (1/20), some (1/5)⟩ : Pricer) with
                      S := some (100 - 1e-5) }
                  OptionType.put.str BarrierType.downAndIn.str (some 90)).val) / (1e-5) ^ 2),
           ("Vega",
              ((price_barrier_option logistic
                  { (⟨some 100, some 100, some 1, some (1/20), some (1/5)⟩ : Pricer) with
                      sigma := some (1/5 + 1e-5) }
                  OptionType.put.str BarrierType.downAndIn.str (some 90)).val -
               (price_barrier_option logistic
                  ⟨some 100, some 100, some 1, some (1/20), some (1/5)⟩
                  OptionType.put.str BarrierType.downAndIn.str (some 90)).val) / 1e-5),
           ("Theta",
              ((price_barrier_option logistic
                  { (⟨some 100, some 100, some 1, some (1/20), some (1/5)⟩ : Pricer) with
                      T := some (max (1 - 1e-5 / 365) 1e-5) }
                  OptionType.put.str BarrierType.downAndIn.str (some 90)).val -
               (price_barrier_option logistic
                  ⟨some 100, some 100, some 1, some (1/20), some (1/5)⟩
                  OptionType.put.str BarrierType.downAndIn.str (some 90)).val) / (1e-5 / 365)),
           ("Rho",
              ((price_barrier_option logistic
                  { (⟨some 100, some 100, some 1, some (1/20), some (1/5)⟩ : Pricer) with
                      r := some (1/20 + 1e-5) }
                  OptionType.put.str BarrierType.downAndIn.str (some 90)).val -
               (price_barrier_option logistic
                  ⟨some 100, some 100, some 1, some (1/20), some (1/5)⟩
                  OptionType.put.str BarrierType.downAndIn.str (some 90)).val) / 1e-5)] :=
  ⟨rfl,
   (calculateGreeks_no_mutation logistic
      ⟨some 100, some 100, some 1, some (1/20), some (1/5)⟩
      100 100 1 (1/20) (1/5) 90 rfl rfl rfl rfl rfl "x" "y" .put .downAndIn).1.1,
   (calculateGreeks_no_mutation logistic
      ⟨some 100, some 100, some 1, some (1/20), some (1/5)⟩
      100 100 1 (1/20) (1/5) 90 rfl rfl rfl rfl rfl "x" "y" .put .downAndIn).2⟩

lemma plot_foldl (N : ℝ → ℝ) (ot bt : String) (B : Option ℝ)
    (oK oT oR oSg : Option ℝ) (xs : List ℝ) :
    ∀ (acc : List (ℝ × PyResult)) (s0 : Option ℝ),
    xs.foldl (plot_step N ot bt B) (acc, ⟨s0, oK, oT, oR, oSg⟩) =
      (acc ++ xs.map (fun s =>
         (s, price_barrier_option N ⟨some s, oK, oT, oR, oSg⟩ ot bt B)),
       ⟨xs.foldl (fun _ s => some s) s0, oK, oT, oR, oSg⟩) := by
  induction xs with
  | nil => intro acc s0; simp
  | cons x xs ih =>
      intro acc s0
      rw [List.foldl_cons, List.foldl_cons]
      show xs.foldl (plot_step N ot bt B)
          (acc ++ [(x, price_barrier_option N ⟨some x, oK, oT, oR, oSg⟩ ot bt B)],
           ⟨some x, oK, oT, oR, oSg⟩) = _
      rw [ih]
      simp

lemma linspace_length (a b : ℝ) (num : ℕ) : (linspace a b num).length = num := by
  simp [linspace]

lemma linspace_last_100 (a b : ℝ) (s0 : Option ℝ) :
    (linspace a b 100).foldl (fun _ s => some s) s0
      = some (a + 99 * ((b - a) / 99)) := by
  rw [linspace, show (100 : ℕ) = 99 + 1 from rfl, List.range_succ,
    List.map_append, List.foldl_append]
  norm_num

lemma linspace_getD_100 (a b : ℝ) (i : ℕ) (hi : i < 100) :
    (linspace a b 100).getD i 0 = a + i * (b - a) / 99 := by
  rw [linspace, List.getD_eq_getElem?_getD, List.getElem?_map,
    List.getElem?_range hi]
  norm_num
  ring

/-- C9: the payoff curve of `plot_payoff` is the ordered sequence of
(spot sample, option price) pairs at exactly 100 evenly spaced samples from
`0.5*K` to `1.5*K`, each priced through `price_barrier_option` with the
non-spot parameters fixed; the sweep writes each sample into the shared
pricer's spot field, so the pricer comes back with its S field holding the
final sample `1.5*K` instead of the spot it held before the call. -/
theorem plotPayoff_sweep (N : ℝ → ℝ) (p : Pricer) (K : ℝ) (hK : p.K = some K)
    (ot bt : String) (B : Option ℝ) :
    plot_payoff N p ot bt B =
      .ok ((linspace (K * 0.5) (K * 1.5) 100).map (fun s =>
              (s, price_barrier_option N { p with S := some s } ot bt B)),
           { p with S := some (K * 1.5) }) ∧
    (linspace (K * 0.5) (K * 1.5) 100).length = 100 ∧
    (∀ i : ℕ, i < 100 →
      (linspace (K * 0.5) (K * 1.5) 100).getD i 0
        = K * 0.5 + i * (K * 1.5 - K * 0.5) / 99) := by
  obtain ⟨s0, k0, t0, r0, g0⟩ := p
  simp only at hK
  subst hK
  refine ⟨?_, linspace_length _ _ _, fun i hi => linspace_getD_100 _ _ i hi⟩
  show Except.ok ((linspace (K * 0.5) (K * 1.5) 100).foldl
      (plot_step N ot bt B) ([], ⟨s0, some K, t0, r0, g0⟩)) = _
  rw [plot_foldl, linspace_last_100]
  rw [show K * 0.5 + 99 * ((K * 1.5 - K * 0.5) / 99) = K * 1.5 from by ring]
  rfl

/-- Witness for C9 on a pricer with strike 100 and initial spot 80. -/
theorem plotPayoff_sweep_witness :
    ((⟨some 80, some 100, some 1, some (1/20), some (1/5)⟩ : Pricer).K = some 100) ∧
    plot_payoff logistic ⟨some 80, some 100, some 1, some (1/20), some (1/5)⟩
        "call" "up-and-out" (some 120) =
      .ok ((linspace (100 * 0.5) (100 * 1.5) 100).map (fun s =>
              (s, price_barrier_option logistic
                    { (⟨some 80, some 100, some 1, some (1/20), some (1/5)⟩ : Pricer) with
                        S := some s }
                    "call" "up-and-out" (some 120))),
           { (⟨some 80, some 100, some 1, some (1/20), some (1/5)⟩ : Pricer) with
               S := some ((100 : ℝ) * 1.5) }) :=
  ⟨rfl,
   (plotPayoff_sweep logistic ⟨some 80, some 100, some 1, some (1/20), some (1/5)⟩
      100 rfl "call" "up-and-out" (some 120)).1⟩

/-- C2 is false of the code: at S=100, K=100, T=1, r=5/100, sigma=1/5,
H=101 (S strictly below the barrier), the sum of the up-and-in and
up-and-out call prices exceeds the vanilla call price by
`S*(H/S)^(2*lambda)*N(x1) >= 50`, far beyond the 1e-8 relative tolerance
— for every function N with the standard normal CDF properties.  The
knock-in/knock-out complementarity the spec demands does not hold. -/
theorem complementarity_fails (N : ℝ → ℝ) (h : IsCDF N) :
    |(price_barrier_option N ⟨some 100, some 100, some 1, some (5/100), some (1/5)⟩
        "call" "up-and-in" (some 101)).val +
     (price_barrier_option N ⟨some 100, some 100, some 1, some (5/100), some (1/5)⟩
        "call" "up-and-out" (some 101)).val -
     specVanillaCall N 100 100 1 (5/100) (1/5)| >
      1e-8 * |specVanillaCall N 100 100 1 (5/100) (1/5)| := by
  obtain ⟨hmono, hpos, hlt1, hzero⟩ := h
  have h1 := price_barrier_eq_spec N 100 100 1 (5/100) (1/5) 101 .call .upAndIn
  have h2 := price_barrier_eq_spec N 100 100 1 (5/100) (1/5) 101 .call .upAndOut
  simp only [OptionType.str, BarrierType.str] at h1 h2
  rw [h1, h2]
  simp only [PyResult.val, specBarrierPrice]
  have hge : ¬((100:ℝ) ≥ 101) := by norm_num
  rw [if_neg hge, if_neg hge]
  have hcollapse : ∀ a v b c : ℝ, |a * b + (v - a * (b - c)) - v| = |a * c| := by
    intro a v b c
    rw [show a * b + (v - a * (b - c)) - v = a * c from by ring]
  rw [hcollapse]
  have hlam2 : 2 * specLambda (5/100) (1/5) = 3/2 := by
    rw [specLambda]; norm_num
  rw [hlam2]
  set xv := specX1 100 100 1 (5/100) (1/5) 101 with hxvdef
  have hx : xv = 5 * Real.log (100/101) + 3/20 := by
    rw [hxvdef, specX1, Real.sqrt_one, specLambda]
    norm_num
    ring
  have hlog : Real.log ((100:ℝ)/101) = - Real.log (101/100) := by
    rw [show ((100:ℝ)/101) = ((101:ℝ)/100)⁻¹ from by norm_num, Real.log_inv]
  have hlb : Real.log ((101:ℝ)/100) ≤ 1/100 :=
    le_trans (Real.log_le_sub_one_of_pos (by norm_num)) (by norm_num)
  have hxnn : (0:ℝ) ≤ xv := by
    rw [hx, hlog]; linarith
  have hNx : (1:ℝ)/2 ≤ N xv := by
    have := hmono.monotone hxnn
    rw [hzero] at this
    exact this
  have hp1 : (1:ℝ) ≤ ((101:ℝ)/100) ^ ((3:ℝ)/2) :=
    Real.one_le_rpow (by norm_num) (by norm_num)
  have hppos : (0:ℝ) < ((101:ℝ)/100) ^ ((3:ℝ)/2) :=
    Real.rpow_pos_of_pos (by norm_num) _
  have h50 : (50:ℝ) ≤ 100 * ((101:ℝ)/100) ^ ((3:ℝ)/2) * N xv := by
    nlinarith [hNx, hpos xv, hp1, hppos]
  have habs : |(100:ℝ) * ((101:ℝ)/100) ^ ((3:ℝ)/2) * N xv|
      = 100 * ((101:ℝ)/100) ^ ((3:ℝ)/2) * N xv := by
    apply abs_of_nonneg
    have := le_of_lt (hpos xv)
    positivity
  rw [habs]
  set V := specVanillaCall N 100 100 1 (5/100) (1/5) with hVdef
  have hVub : V ≤ 100 := by
    rw [hVdef, specVanillaCall]
    have h1 := hlt1 (specD1 100 100 1 (5/100) (1/5))
    have h2 := hpos (specD2 100 100 1 (5/100) (1/5))
    have h3 := Real.exp_pos (-(5/100:ℝ) * 1)
    nlinarith
  have hVlb : -100 ≤ V := by
    rw [hVdef, specVanillaCall]
    have h1 := hpos (specD1 100 100 1 (5/100) (1/5))
    have h2 := hlt1 (specD2 100 100 1 (5/100) (1/5))
    have h2' := hpos (specD2 100 100 1 (5/100) (1/5))
    have h3 : Real.exp (-(5/100:ℝ) * 1) ≤ 1 := Real.exp_le_one_iff.mpr (by norm_num)
    have h4 := Real.exp_pos (-(5/100:ℝ) * 1)
    nlinarith
  have hVabs : |V| ≤ 100 := abs_le.mpr ⟨hVlb, hVub⟩
  have hrhs : 1e-8 * |V| ≤ 1e-6 := by
    have habsnn : (0:ℝ) ≤ |V| := abs_nonneg V
    nlinarith
  linarith

/-- Witness for the C2 refutation: the logistic sigmoid has all the
`IsCDF` properties and instantiates the refutation. -/
theorem complementarity_fails_witness :
    IsCDF logistic ∧
    |(price_barrier_option logistic
        ⟨some 100, some 100, some 1, some (5/100), some (1/5)⟩
        "call" "up-and-in" (some 101)).val +
     (price_barrier_option logistic
        ⟨some 100, some 100, some 1, some (5/100), some (1/5)⟩
        "call" "up-and-out" (some 101)).val -
     specVanillaCall logistic 100 100 1 (5/100) (1/5)| >
      1e-8 * |specVanillaCall logistic 100 100 1 (5/100) (1/5)| :=
  ⟨logistic_isCDF, complementarity_fails logistic logistic_isCDF⟩
